import Mathlib

/-!
Verification development for the f5-tts-service GPU scheduling subsystem.

Shallow embedding of the modules `async_worker_manager.py`, `gpu_worker_pool.py`,
`gpu_integration.py`, `gpu_config.py` and `gpu_monitor.py`.  Python floats are
modelled as rationals (all constants involved are decimal literals and every
comparison performed by the code is decidable on ℚ with the same outcome);
wall-clock timestamp fields, logging and the Redis transport are elided, and
each stateful method is embedded as a pure function from its read state to its
written state together with the messages it publishes and the acknowledgements
it issues.
-/

namespace F5TTS

/-! ### Task priorities and worker tasks (`async_worker_manager.py`) -/

/-- Embedding of `TaskPriority` (LOW=1, NORMAL=2, HIGH=3, CRITICAL=4). -/
inductive TaskPriority where
  | low
  | normal
  | high
  | critical
deriving DecidableEq, Repr

/-- Numeric value of a priority, as in the Python `Enum`. -/
def TaskPriority.value : TaskPriority → Nat
  | .low => 1
  | .normal => 2
  | .high => 3
  | .critical => 4

/-- Embedding of the `WorkerTask` dataclass (timestamps elided). -/
structure WorkerTask where
  task_id : String
  text : String
  voice : String
  user_id : Option Int
  priority : TaskPriority
  stream_id : String
  use_gpu : Bool := true
  retry_count : Nat := 0
  max_retries : Nat := 3
deriving DecidableEq, Repr

/-- The four in-memory priority lanes (`self.priority_queues`), each a FIFO:
the head of the list is the element `get_nowait` would return. -/
structure PriorityQueues where
  criticalLane : List WorkerTask
  highLane : List WorkerTask
  normalLane : List WorkerTask
  lowLane : List WorkerTask
deriving DecidableEq, Repr

/-- `asyncio.Queue.get_nowait`: returns the front element or raises
`QueueEmpty` (modelled as `none`). -/
def laneGet : List WorkerTask → Option (WorkerTask × List WorkerTask)
  | [] => none
  | t :: ts => some (t, ts)

/-- Embedding of `AsyncWorkerManager._get_next_task`: try the four lanes once
each, non-blocking, in the order CRITICAL, HIGH, NORMAL, LOW. -/
def getNextTask (q : PriorityQueues) : Option (WorkerTask × PriorityQueues) :=
  match laneGet q.criticalLane with
  | some (t, rest) => some (t, { q with criticalLane := rest })
  | none =>
    match laneGet q.highLane with
    | some (t, rest) => some (t, { q with highLane := rest })
    | none =>
      match laneGet q.normalLane with
      | some (t, rest) => some (t, { q with normalLane := rest })
      | none =>
        match laneGet q.lowLane with
        | some (t, rest) => some (t, { q with lowLane := rest })
        | none => none

/-- Lane discipline maintained by `_task_dispatcher_loop`, which enqueues every
task into `self.priority_queues[task.priority]`. -/
def lanesWellFormed (q : PriorityQueues) : Prop :=
  (∀ t ∈ q.criticalLane, t.priority = .critical) ∧
  (∀ t ∈ q.highLane, t.priority = .high) ∧
  (∀ t ∈ q.normalLane, t.priority = .normal) ∧
  (∀ t ∈ q.lowLane, t.priority = .low)

instance (q : PriorityQueues) : Decidable (lanesWellFormed q) := by
  unfold lanesWellFormed; infer_instance

/-! ### Configuration (`gpu_config.py`) -/

/-- Embedding of the `GPUConfig` dataclass with its default field values
(stream names and Redis URL elided; floats as rationals). -/
structure GPUConfig where
  min_concurrent : Int := 1
  max_concurrent : Int := 4
  initial_concurrent : Int := 2
  gpu_memory_threshold_low : ℚ := 3/10
  gpu_memory_threshold_high : ℚ := 8/10
  gpu_memory_threshold_critical : ℚ := 9/10
  monitoring_interval : ℚ := 5
  task_timeout : ℚ := 300
  retry_delay : ℚ := 5
deriving DecidableEq, Repr

/-- The error list accumulated by `GPUConfig.validate`, in source order. -/
def GPUConfig.validateErrors (c : GPUConfig) : List String :=
  (if c.min_concurrent < 1 then ["min_concurrent must be >= 1"] else []) ++
  (if c.max_concurrent < c.min_concurrent then
      ["max_concurrent must be >= min_concurrent"] else []) ++
  (if c.initial_concurrent < c.min_concurrent ∨ c.initial_concurrent > c.max_concurrent then
      ["initial_concurrent must be between min_concurrent and max_concurrent"] else []) ++
  (if ¬ (0 ≤ c.gpu_memory_threshold_low ∧ c.gpu_memory_threshold_low ≤ 1) then
      ["gpu_memory_threshold_low must be between 0 and 1"] else []) ++
  (if ¬ (0 ≤ c.gpu_memory_threshold_high ∧ c.gpu_memory_threshold_high ≤ 1) then
      ["gpu_memory_threshold_high must be between 0 and 1"] else []) ++
  (if ¬ (0 ≤ c.gpu_memory_threshold_critical ∧ c.gpu_memory_threshold_critical ≤ 1) then
      ["gpu_memory_threshold_critical must be between 0 and 1"] else []) ++
  (if ¬ (c.gpu_memory_threshold_low ≤ c.gpu_memory_threshold_high ∧
          c.gpu_memory_threshold_high ≤ c.gpu_memory_threshold_critical) then
      ["Memory thresholds must be in ascending order"] else []) ++
  (if c.monitoring_interval ≤ 0 then ["monitoring_interval must be > 0"] else []) ++
  (if c.task_timeout ≤ 0 then ["task_timeout must be > 0"] else []) ++
  (if c.retry_delay ≤ 0 then ["retry_delay must be > 0"] else [])

/-- Embedding of `GPUConfig.validate`: raises `ValueError` (modelled as
`Except.error`) when the error list is non-empty, else returns `True`. -/
def GPUConfig.validate (c : GPUConfig) : Except String Bool :=
  if c.validateErrors.isEmpty then .ok true
  else .error (String.intercalate "; " c.validateErrors)

/-- Outcome of the module-level startup code at the bottom of `gpu_config.py`
together with the bottom of `gpu_worker_pool.py`. -/
structure StartupResult where
  warningLogged : Option String
  poolConstructed : Bool
deriving DecidableEq, Repr

/-- Embedding of the module-level startup: `gpu_config.validate()` is wrapped
in `try/except ValueError` that only logs a warning, and `gpu_worker_pool.py`
then constructs `GPUWorkerPool(config=gpu_config)` unconditionally
(`GPUWorkerPool.__init__` performs no validation of its own). -/
def moduleStartup (c : GPUConfig) : StartupResult :=
  match c.validate with
  | .error e => { warningLogged := some e, poolConstructed := true }
  | .ok _ => { warningLogged := none, poolConstructed := true }

/-! ### Adaptive concurrency (`gpu_worker_pool.py`) -/

/-- Static pool parameters read by the adaptive controller (instance
attributes of `GPUWorkerPool` that are never reassigned). -/
structure PoolConfig where
  minConcurrent : Int
  maxConcurrent : Int
  lowThreshold : ℚ
  highThreshold : ℚ
  criticalThreshold : ℚ
deriving DecidableEq, Repr

/-- Pool parameters produced from a `GPUConfig` by `GPUWorkerPool.__init__`. -/
def PoolConfig.ofGPUConfig (c : GPUConfig) : PoolConfig :=
  { minConcurrent := c.min_concurrent
    maxConcurrent := c.max_concurrent
    lowThreshold := c.gpu_memory_threshold_low
    highThreshold := c.gpu_memory_threshold_high
    criticalThreshold := c.gpu_memory_threshold_critical }

/-- Embedding of `GPUWorkerPool._adapt_concurrency`: the new value of
`self.current_concurrent` as a function of the old value and the sampled
`memory_usage_percent`. -/
def adaptConcurrency (cfg : PoolConfig) (current : Int) (mem : ℚ) : Int :=
  if cfg.criticalThreshold ≤ mem then cfg.minConcurrent
  else if cfg.highThreshold ≤ mem then max cfg.minConcurrent (current - 1)
  else if mem ≤ cfg.lowThreshold then min cfg.maxConcurrent (current + 1)
  else current

/-- The trace of concurrency limits produced by feeding one memory sample per
monitoring interval, starting from the initial limit. -/
def adaptTrace (cfg : PoolConfig) (start : Int) (samples : List ℚ) : List Int :=
  List.scanl (adaptConcurrency cfg) start samples

/-! ### Health score (`gpu_monitor.py`) -/

/-- Memory penalty tier of `_calculate_health_score`. -/
def memoryPenalty (memory_usage : ℚ) : ℚ :=
  if memory_usage > 9/10 then 40
  else if memory_usage > 8/10 then 20
  else if memory_usage > 7/10 then 10
  else 0

/-- Temperature penalty tier (skipped when the reading is unavailable). -/
def temperaturePenalty : Option ℚ → ℚ
  | none => 0
  | some t =>
    if t > 85 then 30
    else if t > 80 then 15
    else if t > 75 then 5
    else 0

/-- Error-rate penalty tier. -/
def errorRatePenalty (error_rate : ℚ) : ℚ :=
  if error_rate > 1/10 then 25
  else if error_rate > 1/20 then 10
  else if error_rate > 1/100 then 5
  else 0

/-- Average-latency penalty tier. -/
def latencyPenalty (avg_processing_time : ℚ) : ℚ :=
  if avg_processing_time > 60 then 15
  else if avg_processing_time > 30 then 5
  else 0

/-- Utilization bonus for the healthy band. -/
def utilizationBonus (gpu_utilization : ℚ) : ℚ :=
  if 3/10 ≤ gpu_utilization ∧ gpu_utilization ≤ 8/10 then 5 else 0

/-- The health score as the spec phrases it: start at 100, subtract the four
penalty groups, add the utilization bonus, clamp to [0, 100]. -/
def healthScoreSpec (memory_usage gpu_utilization : ℚ) (temperature : Option ℚ)
    (error_rate avg_processing_time : ℚ) : ℚ :=
  max 0 (min 100
    (100 - memoryPenalty memory_usage - temperaturePenalty temperature
      - errorRatePenalty error_rate - latencyPenalty avg_processing_time
      + utilizationBonus gpu_utilization))

/-- Direct transliteration of `GPUHealthMonitor._calculate_health_score`, with
the sequential `score -= ...` updates kept in source order. -/
def calculateHealthScore (memory_usage gpu_utilization : ℚ) (temperature : Option ℚ)
    (error_rate avg_processing_time : ℚ) : ℚ :=
  let score : ℚ := 100
  let score :=
    if memory_usage > 9/10 then score - 40
    else if memory_usage > 8/10 then score - 20
    else if memory_usage > 7/10 then score - 10
    else score
  let score :=
    match temperature with
    | some t =>
      if t > 85 then score - 30
      else if t > 80 then score - 15
      else if t > 75 then score - 5
      else score
    | none => score
  let score :=
    if error_rate > 1/10 then score - 25
    else if error_rate > 1/20 then score - 10
    else if error_rate > 1/100 then score - 5
    else score
  let score :=
    if avg_processing_time > 60 then score - 15
    else if avg_processing_time > 30 then score - 5
    else score
  let score :=
    if 3/10 ≤ gpu_utilization ∧ gpu_utilization ≤ 8/10 then score + 5 else score
  max 0 (min 100 score)

/-! ### Python dictionaries as association lists -/

/-- Lookup in a Python dict modelled as an association list. -/
def dictGet {α : Type} (k : String) : List (String × α) → Option α
  | [] => none
  | (k', v) :: rest => if k' = k then some v else dictGet k rest

/-- Assignment `d[k] = v`: overwrite in place when the key exists, append
otherwise. -/
def dictInsert {α : Type} (k : String) (v : α) : List (String × α) → List (String × α)
  | [] => [(k, v)]
  | (k', v') :: rest => if k' = k then (k, v) :: rest else (k', v') :: dictInsert k v rest

/-- Deletion `del d[k]` guarded by `k in d` (a no-op when the key is absent). -/
def dictRemove {α : Type} (k : String) : List (String × α) → List (String × α)
  | [] => []
  | (k', v) :: rest => if k' = k then rest else (k', v) :: dictRemove k rest

/-! ### Result publication and retry handling (`async_worker_manager.py`) -/

/-- A message published on the output stream by `_send_result` (time fields
elided). -/
structure ResultMessage where
  task_id : String
  status : String
  result_path : String
  error : String
deriving DecidableEq, Repr

/-- The message `AsyncWorkerManager._send_result` publishes for a successful
task. -/
def successMessage (t : WorkerTask) (path : String) : ResultMessage :=
  { task_id := t.task_id, status := "completed", result_path := path, error := "" }

/-- The message `AsyncWorkerManager._send_result` publishes for a terminal
failure (`result_path=None`). -/
def failureMessage (t : WorkerTask) (err : String) : ResultMessage :=
  { task_id := t.task_id, status := "failed", result_path := "", error := err }

/-- The externally visible effects of one pass through
`AsyncWorkerManager._process_task` or `_handle_task_error`. -/
structure AwmEffects where
  resultsPublished : List ResultMessage
  acks : List String
  requeued : Option WorkerTask
deriving DecidableEq, Repr

/-- Embedding of `AsyncWorkerManager._handle_task_error`: increment
`retry_count`; if still below `max_retries`, re-enqueue into the original
priority lane; otherwise publish one terminal failure result and acknowledge
the source message. -/
def handleTaskError (t : WorkerTask) (err : String) : AwmEffects :=
  let t' := { t with retry_count := t.retry_count + 1 }
  if t'.retry_count < t'.max_retries then
    { resultsPublished := [], acks := [], requeued := some t' }
  else
    { resultsPublished := [failureMessage t' err], acks := [t'.stream_id], requeued := none }

/-- Embedding of `AsyncWorkerManager._process_task`, parameterised by the
synthesis outcome (`some path` when the CPU or GPU path returned an audio
path, `none` when it returned `None` or raised). -/
def awmProcessTask (t : WorkerTask) (synthResult : Option String) : AwmEffects :=
  match synthResult with
  | some path =>
      { resultsPublished := [successMessage t path], acks := [t.stream_id], requeued := none }
  | none => handleTaskError t "Processing failed"

/-- Total number of executions and the terminal effects for a task whose
synthesis fails on every attempt: each execution calls `_process_task` with a
failing outcome, and the requeued task (if any) is executed next. -/
def runAlwaysFailing (t : WorkerTask) : Nat × AwmEffects :=
  if h : t.retry_count + 1 < t.max_retries then
    let r := runAlwaysFailing { t with retry_count := t.retry_count + 1 }
    (r.1 + 1, r.2)
  else
    (1, handleTaskError t "Processing failed")
termination_by t.max_retries - t.retry_count
decreasing_by simp_wf; omega

/-! ### GPU worker pool task processing (`gpu_worker_pool.py`) -/

/-- Embedding of the `SynthesisTask` dataclass (timestamps elided). -/
structure SynthesisTask where
  task_id : String
  text : String
  voice : String
  user_id : Option Int
  priority : Int := 0
  result_path : Option String := none
  error : Option String := none
deriving DecidableEq, Repr

/-- The state written and the messages emitted by one call of
`GPUWorkerPool._process_task`. -/
structure GpuProcessOutcome where
  completed : List (String × SynthesisTask)
  resultsPublished : List ResultMessage
  acks : List String
deriving DecidableEq, Repr

/-- The message `GPUWorkerPool._send_result` publishes for a task. -/
def gpuResultMessage (t : SynthesisTask) : ResultMessage :=
  { task_id := t.task_id
    status := if t.result_path.isSome then "completed" else "failed"
    result_path := t.result_path.getD ""
    error := t.error.getD "" }

/-- Embedding of `GPUWorkerPool._process_task`, parameterised by the outcome
of `_synthesize_speech` (`some path` on success, `none` when synthesis failed
or raised).  On success the task is stored in `completed_tasks`, one result is
published via `_send_result` and the message is acknowledged; on failure the
task is stored with `error='Synthesis failed'` and the message is
acknowledged, but `_send_result` is never called. -/
def gpuProcessTask (completed : List (String × SynthesisTask)) (t : SynthesisTask)
    (stream_id : String) (synthResult : Option String) : GpuProcessOutcome :=
  match synthResult with
  | some path =>
      let t' := { t with result_path := some path }
      { completed := dictInsert t.task_id t' completed
        resultsPublished := [gpuResultMessage t']
        acks := [stream_id] }
  | none =>
      let t' := { t with error := some "Synthesis failed" }
      { completed := dictInsert t.task_id t' completed
        resultsPublished := []
        acks := [stream_id] }

/-- The view of a completed task returned by `GPUWorkerPool.get_task_result`. -/
structure TaskResultView where
  task_id : String
  status : String
  result_path : Option String
  error : Option String
deriving DecidableEq, Repr

/-- Embedding of `GPUWorkerPool.get_task_result`: a lookup in
`completed_tasks`, reporting status from `result_path`. -/
def getTaskResult (completed : List (String × SynthesisTask)) (task_id : String) :
    Option TaskResultView :=
  match dictGet task_id completed with
  | some t =>
      some { task_id := t.task_id
             status := if t.result_path.isSome then "completed" else "failed"
             result_path := t.result_path
             error := t.error }
  | none => none

/-- The operations of `GPUWorkerPool` that could touch `completed_tasks`
during the pool's lifetime. -/
inductive GpuPoolOp where
  | processTask (t : SynthesisTask) (stream_id : String) (synthResult : Option String)
  | submitTask (t : SynthesisTask)
  | getResult (task_id : String)
  | stop
deriving DecidableEq, Repr

/-- Effect of each pool operation on the `completed_tasks` dict:
`_process_task` inserts on both terminal branches; `submit_task`,
`get_task_result` and `stop` leave the dict untouched (`stop` cancels workers
and closes Redis but never clears `completed_tasks`). -/
def gpuPoolCompletedStep (completed : List (String × SynthesisTask)) :
    GpuPoolOp → List (String × SynthesisTask)
  | .processTask t sid synthResult => (gpuProcessTask completed t sid synthResult).completed
  | .submitTask _ => completed
  | .getResult _ => completed
  | .stop => completed

/-! ### Correlation cache (`gpu_integration.py`) -/

/-- A `task_cache` entry recorded by `_forward_to_gpu` (the original stream
id; the `started_at` timestamp and status string are elided). -/
structure CacheEntry where
  stream_id : String
deriving DecidableEq, Repr

/-- Events that can affect `GPUIntegrationService.task_cache`.  `timePasses`
models the advance of wall-clock time: the service runs no timer and no
sweep over `task_cache` (its `processing_timeout` config field is never read),
so elapsing time executes no code that touches the cache. -/
inductive IntegrationOp where
  | forwardToGpu (task_id stream_id : String)
  | gpuResult (task_id : String)
  | timePasses
deriving DecidableEq, Repr

/-- Effect of each event on `task_cache`: `_forward_to_gpu` inserts the
correlation entry; `_process_gpu_result` deletes the entry when a result
message for that task id arrives (and does nothing to the cache otherwise);
nothing else in the service writes the cache. -/
def cacheStep (cache : List (String × CacheEntry)) : IntegrationOp → List (String × CacheEntry)
  | .forwardToGpu task_id stream_id => dictInsert task_id ⟨stream_id⟩ cache
  | .gpuResult task_id => dictRemove task_id cache
  | .timePasses => cache

/-- Run a sequence of integration events from a cache state. -/
def runCache (cache : List (String × CacheEntry)) (ops : List IntegrationOp) :
    List (String × CacheEntry) :=
  List.foldl cacheStep cache ops

/-! ### Concurrency permit gate (`gpu_worker_pool.py` semaphore) -/

/-- The mutable scheduling state relevant to the permit gate:
`current_concurrent`, the current `asyncio.Semaphore` (its free-permit count
`semValue` and the tasks `semHolders` holding one of its permits), and the
tasks `oldHolders` still holding permits of semaphores replaced by
`_update_semaphore`. -/
structure PoolSemState where
  current : Int
  semValue : Int
  semHolders : Nat
  oldHolders : Nat
deriving DecidableEq, Repr

/-- Events of the pool scheduling loop.  `memorySample` is one iteration of
`_monitor_gpu`: `_adapt_concurrency` followed, when the limit changed, by
`_update_semaphore`, which immediately replaces `self.semaphore` with a fresh
semaphore of the new size while tasks holding permits of the old semaphore
keep running (the drain loop in `_update_semaphore` only delays the monitor
coroutine; workers acquire the new semaphore concurrently). -/
inductive PoolEvent where
  | acquire
  | release
  | releaseOld
  | memorySample (mem : ℚ)
deriving DecidableEq, Repr

/-- Small-step semantics of the permit gate. -/
def poolStep (cfg : PoolConfig) (s : PoolSemState) : PoolEvent → PoolSemState
  | .acquire =>
      if 0 < s.semValue then
        { s with semValue := s.semValue - 1, semHolders := s.semHolders + 1 }
      else s
  | .release =>
      if 0 < s.semHolders then
        { s with semValue := s.semValue + 1, semHolders := s.semHolders - 1 }
      else s
  | .releaseOld => { s with oldHolders := s.oldHolders - 1 }
  | .memorySample mem =>
      let newCurrent := adaptConcurrency cfg s.current mem
      if newCurrent ≠ s.current then
        { current := newCurrent
          semValue := newCurrent
          semHolders := 0
          oldHolders := s.oldHolders + s.semHolders }
      else s

/-- Run a sequence of pool events. -/
def runPool (cfg : PoolConfig) (s : PoolSemState) (evs : List PoolEvent) : PoolSemState :=
  List.foldl (poolStep cfg) s evs

/-- Number of tasks currently holding a concurrency permit (on the current
gate or on a superseded one), i.e. tasks executing inference. -/
def PoolSemState.executing (s : PoolSemState) : Nat :=
  s.semHolders + s.oldHolders

/-- Inductive invariant of the permit gate: the current semaphore's free
permits are non-negative and permits-free plus permits-held equals the
current limit, which stays within the configured band. -/
def PoolInv (cfg : PoolConfig) (s : PoolSemState) : Prop :=
  0 ≤ s.semValue ∧ (s.semHolders : Int) + s.semValue = s.current ∧
    cfg.minConcurrent ≤ s.current ∧ s.current ≤ cfg.maxConcurrent

instance (cfg : PoolConfig) (s : PoolSemState) : Decidable (PoolInv cfg s) := by
  unfold PoolInv; infer_instance

/-! ### GPU eligibility (`async_worker_manager.py` / `gpu_integration.py`) -/

/-- The state of the accelerator pool read by `_should_use_gpu`: whether a
running pool is available, and the memory usage of the last GPU metrics
snapshot when one exists. -/
structure GpuPoolView where
  available : Bool
  memUsage : Option ℚ
deriving DecidableEq, Repr

/-- Embedding of `_should_use_gpu` (identical checks in
`AsyncWorkerManager._should_use_gpu` and
`GPUIntegrationService._should_use_gpu`): not eligible when no pool is
available, when the last metrics snapshot shows memory usage above the
hard-coded 0.95, when the task priority is below 0, or when the text is
shorter than 50 characters; eligible otherwise.  The function only reads its
inputs (side-effect-free). -/
def memUsageAboveLimit : Option ℚ → Bool
  | some m => if 95/100 < m then true else false
  | none => false

/-- The eligibility predicate itself (see the comment above
`memUsageAboveLimit` for the embedded checks). -/
def shouldUseGpu (pool : GpuPoolView) (priority : Int) (textLen : Nat) : Bool :=
  if pool.available = false then false
  else if memUsageAboveLimit pool.memUsage then false
  else if priority < 0 then false
  else if textLen < 50 then false
  else true

/-- A failed `Except` computation (a Python call that raised). -/
def exceptFailed {ε α : Type} : Except ε α → Bool
  | .error _ => true
  | .ok _ => false

/-! ### Association-list lemmas -/

theorem dictGet_dictInsert {α : Type} (k id : String) (v : α) (d : List (String × α)) :
    dictGet k (dictInsert id v d) = if id = k then some v else dictGet k d := by
  induction d with
  | nil => simp [dictGet, dictInsert]
  | cons hd tl ih =>
    obtain ⟨k', v'⟩ := hd
    by_cases h1 : k' = id
    · subst h1
      by_cases h2 : k' = k
      · subst h2
        simp [dictGet, dictInsert]
      · simp [dictGet, dictInsert, h2]
    · by_cases h2 : k' = k
      · have hik : id ≠ k := fun hcon => h1 (h2.trans hcon.symm)
        have hki : ¬ k = id := fun hcon => hik hcon.symm
        simp [dictGet, dictInsert, h1, h2, hik, hki]
      · simp [dictGet, dictInsert, h1, h2, ih]

theorem dictGet_dictRemove_ne {α : Type} (k id : String) (d : List (String × α))
    (h : id ≠ k) : dictGet k (dictRemove id d) = dictGet k d := by
  induction d with
  | nil => simp [dictGet, dictRemove]
  | cons hd tl ih =>
    obtain ⟨k', v'⟩ := hd
    by_cases h1 : k' = id
    · subst h1
      simp [dictGet, dictRemove, h]
    · simp [dictGet, dictRemove, h1, ih]

theorem length_dictInsert_ge {α : Type} (k : String) (v : α) (d : List (String × α)) :
    d.length ≤ (dictInsert k v d).length := by
  induction d with
  | nil => simp [dictInsert]
  | cons hd tl ih =>
    obtain ⟨k', v'⟩ := hd
    by_cases h1 : k' = k <;> simp [dictInsert, h1] <;> omega

theorem length_dictInsert_fresh {α : Type} (k : String) (v : α) (d : List (String × α))
    (h : dictGet k d = none) : (dictInsert k v d).length = d.length + 1 := by
  induction d with
  | nil => simp [dictInsert]
  | cons hd tl ih =>
    obtain ⟨k', v'⟩ := hd
    by_cases h1 : k' = k
    · subst h1; simp [dictGet] at h
    · simp [dictGet, h1] at h
      simp [dictInsert, h1, ih h]

/-! ### Claim C6: strict priority order of the dequeue operation -/

/-- C6 (confirmed).  `_get_next_task` checks the four lanes once each,
non-blocking, in the order Critical, High, Normal, Low: it returns `none`
exactly when all four lanes are empty, and under the dispatcher's lane
discipline it never returns a Normal or Low task while the Critical or High
lane is non-empty. -/
theorem getNextTask_priority_order :
    ∀ q : PriorityQueues, lanesWellFormed q →
      ((getNextTask q = none ↔
          q.criticalLane = [] ∧ q.highLane = [] ∧ q.normalLane = [] ∧ q.lowLane = []) ∧
        (∀ t q', getNextTask q = some (t, q') →
          (q.criticalLane ≠ [] ∨ q.highLane ≠ []) →
          t.priority = .critical ∨ t.priority = .high)) := by
  rintro ⟨cs, hs, ns, ls⟩ ⟨hc, hh, _, _⟩
  refine ⟨?_, ?_⟩
  · cases cs <;> cases hs <;> cases ns <;> cases ls <;>
      simp [getNextTask, laneGet]
  · rintro t q' hq hne
    cases cs with
    | cons c cs' =>
      simp only [getNextTask, laneGet, Option.some.injEq, Prod.mk.injEq] at hq
      exact Or.inl (hq.1 ▸ hc c (by simp))
    | nil =>
      cases hs with
      | cons h hs' =>
        simp only [getNextTask, laneGet, Option.some.injEq, Prod.mk.injEq] at hq
        exact Or.inr (hq.1 ▸ hh h (by simp))
      | nil => simp at hne

/-- A concrete critical task used to witness C6. -/
def c6CriticalTask : WorkerTask :=
  { task_id := "c1", text := "urgent text", voice := "female_1", user_id := none,
    priority := .critical, stream_id := "s-c1" }

/-- A concrete normal task waiting behind the critical one. -/
def c6NormalTask : WorkerTask :=
  { task_id := "n1", text := "normal text", voice := "female_1", user_id := none,
    priority := .normal, stream_id := "s-n1" }

/-- Concrete lane state: one critical task and one normal task waiting. -/
def c6Queues : PriorityQueues :=
  { criticalLane := [c6CriticalTask], highLane := [], normalLane := [c6NormalTask],
    lowLane := [] }

/-- Witness for C6 at a concrete lane state. -/
theorem getNextTask_priority_order_witness :
    c6CriticalTask.priority = .critical ∨ c6CriticalTask.priority = .high :=
  (getNextTask_priority_order c6Queues (by decide)).2 c6CriticalTask
    { c6Queues with criticalLane := [] } rfl (Or.inl (by decide))

/-! ### Claim C4: the adaptive-concurrency scenario trace -/

/-- The pool configuration of the C4 scenario (`min=1, max=4`, default
thresholds). -/
def c4Config : PoolConfig :=
  { minConcurrent := 1, maxConcurrent := 4,
    lowThreshold := 3/10, highThreshold := 8/10, criticalThreshold := 9/10 }

/-- The memory-usage sample sequence of the C4 scenario. -/
def c4Samples : List ℚ := [95/100, 95/100, 2/10, 2/10, 2/10]

theorem c4_step_critical : adaptConcurrency c4Config 2 (95/100) = 1 := by
  norm_num [adaptConcurrency, c4Config]

theorem c4_step_critical' : adaptConcurrency c4Config 1 (95/100) = 1 := by
  norm_num [adaptConcurrency, c4Config]

theorem c4_step_low (c : Int) : adaptConcurrency c4Config c (2/10) = min 4 (c + 1) := by
  norm_num [adaptConcurrency, c4Config]

theorem c4_trace_eval : adaptTrace c4Config 2 c4Samples = ([2, 1, 1, 2, 3, 4] : List Int) := by
  simp [adaptTrace, c4Samples, List.scanl, c4_step_critical, c4_step_critical', c4_step_low]

theorem c4_trace_take_eval :
    adaptTrace c4Config 2 (c4Samples.take 4) = ([2, 1, 1, 2, 3] : List Int) := by
  simp [adaptTrace, c4Samples, List.scanl, c4_step_critical, c4_step_critical', c4_step_low]

/-- C4 counterexample: applying `_adapt_concurrency` once per sample to all
five samples does not produce the claimed sequence `2→1→1→2→3`. -/
theorem adaptTrace_cex :
    adaptTrace c4Config 2 c4Samples ≠ ([2, 1, 1, 2, 3] : List Int) := by
  rw [c4_trace_eval]; decide

/-- C4 (amended).  The five samples produce the limit sequence
`2→1→1→2→3→4`; the claimed sequence `2→1→1→2→3` is the trace after only the
first four samples (the fifth low sample raises the limit once more, to 4). -/
theorem adaptTrace_amended :
    adaptTrace c4Config 2 c4Samples = ([2, 1, 1, 2, 3, 4] : List Int) ∧
    adaptTrace c4Config 2 (c4Samples.take 4) = ([2, 1, 1, 2, 3] : List Int) :=
  ⟨c4_trace_eval, c4_trace_take_eval⟩

/-! ### Claim C8: configuration validation at startup -/

/-- A configuration with out-of-order memory thresholds
(`high = 0.2 < low = 0.3`). -/
def badGPUConfig : GPUConfig := { gpu_memory_threshold_high := 1/5 }

/-- C8 (amended).  For any configuration with `high < low` or
`max_concurrent < min_concurrent`, `GPUConfig.validate` raises (returns an
error), but the module-level startup catches the error, logs it as a warning
and constructs the pool regardless: the scheduler is not prevented from
running with the invalid configuration. -/
theorem configValidation_amended :
    ∀ c : GPUConfig,
      (c.gpu_memory_threshold_high < c.gpu_memory_threshold_low ∨
        c.max_concurrent < c.min_concurrent) →
      c.validateErrors ≠ [] ∧
      exceptFailed c.validate = true ∧
      (moduleStartup c).poolConstructed = true ∧
      (moduleStartup c).warningLogged.isSome = true := by
  intro c h
  have hne : c.validateErrors ≠ [] := by
    rcases h with h | h
    · have h7 : ¬ (c.gpu_memory_threshold_low ≤ c.gpu_memory_threshold_high ∧
          c.gpu_memory_threshold_high ≤ c.gpu_memory_threshold_critical) := by
        intro hcon
        exact absurd h (not_lt.mpr hcon.1)
      exact List.ne_nil_of_mem (a := "Memory thresholds must be in ascending order")
        (by simp [GPUConfig.validateErrors, h7])
    · exact List.ne_nil_of_mem (a := "max_concurrent must be >= min_concurrent")
        (by simp [GPUConfig.validateErrors, h])
  have hvalid : c.validate = .error (String.intercalate "; " c.validateErrors) := by
    unfold GPUConfig.validate
    rw [if_neg (by simpa [List.isEmpty_iff] using hne)]
  refine ⟨hne, ?_, ?_, ?_⟩ <;> simp [hvalid, moduleStartup, exceptFailed]

/-- C8 counterexample: with out-of-order thresholds `validate` reports an
error, yet the module-level startup merely logs a warning and still
constructs the worker pool; nothing fails before workers start. -/
theorem configValidation_cex :
    badGPUConfig.validateErrors ≠ [] ∧
    exceptFailed badGPUConfig.validate = true ∧
    (moduleStartup badGPUConfig).poolConstructed = true ∧
    (moduleStartup badGPUConfig).warningLogged.isSome = true := by
  have h : badGPUConfig.gpu_memory_threshold_high < badGPUConfig.gpu_memory_threshold_low := by
    norm_num [badGPUConfig]
  exact configValidation_amended badGPUConfig (Or.inl h)

/-- Witness for C8 at the concrete invalid configuration. -/
theorem configValidation_amended_witness :
    badGPUConfig.validateErrors ≠ [] ∧
    exceptFailed badGPUConfig.validate = true ∧
    (moduleStartup badGPUConfig).poolConstructed = true ∧
    (moduleStartup badGPUConfig).warningLogged.isSome = true :=
  configValidation_amended badGPUConfig (Or.inl (by norm_num [badGPUConfig]))

/-! ### Claim C7: GPU eligibility predicate -/

/-- The default configuration as produced by `GPUConfig()` with no
environment overrides. -/
def defaultGPUConfig : GPUConfig := {}

/-- C7 counterexample: at accelerator memory usage 0.92 — above the
configured critical threshold (0.9 by default) — the predicate still returns
`true`: the code compares against a hard-coded 0.95, not the configured
critical threshold. -/
theorem shouldUseGpu_configuredThreshold_cex :
    shouldUseGpu ⟨true, some (92/100)⟩ 2 100 = true ∧
    defaultGPUConfig.gpu_memory_threshold_critical < 92/100 := by
  constructor
  · norm_num [shouldUseGpu, memUsageAboveLimit]
  · norm_num [defaultGPUConfig]

/-- C7 (amended).  The predicate is a pure function of its inputs, and it
returns `false` exactly when (a) no pool is available, (b) the last metrics
snapshot exists and shows memory usage above the hard-coded 0.95 (not the
configured critical threshold), (c) the priority is below 0, or (d) the text
is shorter than 50 characters; otherwise it returns `true`. -/
theorem shouldUseGpu_amended :
    ∀ (pool : GpuPoolView) (priority : Int) (textLen : Nat),
      shouldUseGpu pool priority textLen = false ↔
        (pool.available = false ∨
          (∃ m, pool.memUsage = some m ∧ 95/100 < m) ∨
          priority < 0 ∨ textLen < 50) := by
  rintro ⟨avail, memUsage⟩ priority textLen
  cases avail with
  | false => simp [shouldUseGpu]
  | true =>
    cases memUsage with
    | none =>
      simp only [shouldUseGpu, memUsageAboveLimit]
      split_ifs with h1 h2 <;> simp_all
    | some m =>
      simp only [shouldUseGpu, memUsageAboveLimit]
      split_ifs with h0 h1 h2 <;> simp_all

/-! ### Claim C5: the health-score function -/

theorem memoryPenalty_nonneg (m : ℚ) : 0 ≤ memoryPenalty m := by
  unfold memoryPenalty; split_ifs <;> norm_num

theorem memoryPenalty_eq_zero {m : ℚ} (h : m ≤ 7/10) : memoryPenalty m = 0 := by
  unfold memoryPenalty; split_ifs <;> first | rfl | linarith

theorem memoryPenalty_le_ten {m : ℚ} (h : m ≤ 8/10) : memoryPenalty m ≤ 10 := by
  unfold memoryPenalty; split_ifs <;> linarith

theorem memoryPenalty_le_twenty {m : ℚ} (h : m ≤ 9/10) : memoryPenalty m ≤ 20 := by
  unfold memoryPenalty; split_ifs <;> linarith

theorem memoryPenalty_ge_ten {m : ℚ} (h : 7/10 < m) : 10 ≤ memoryPenalty m := by
  unfold memoryPenalty; split_ifs <;> linarith

theorem memoryPenalty_ge_twenty {m : ℚ} (h : 8/10 < m) : 20 ≤ memoryPenalty m := by
  unfold memoryPenalty; split_ifs <;> linarith

theorem memoryPenalty_eq_forty {m : ℚ} (h : 9/10 < m) : memoryPenalty m = 40 := by
  unfold memoryPenalty; split_ifs <;> first | rfl | linarith

theorem temperaturePenalty_nonneg (t : Option ℚ) : 0 ≤ temperaturePenalty t := by
  cases t <;> unfold temperaturePenalty <;> try norm_num
  split_ifs <;> norm_num

theorem temperaturePenalty_le (t : Option ℚ) : temperaturePenalty t ≤ 30 := by
  cases t <;> unfold temperaturePenalty <;> try norm_num
  split_ifs <;> norm_num

theorem errorRatePenalty_nonneg (e : ℚ) : 0 ≤ errorRatePenalty e := by
  unfold errorRatePenalty; split_ifs <;> norm_num

theorem errorRatePenalty_le (e : ℚ) : errorRatePenalty e ≤ 25 := by
  unfold errorRatePenalty; split_ifs <;> norm_num

theorem latencyPenalty_nonneg (l : ℚ) : 0 ≤ latencyPenalty l := by
  unfold latencyPenalty; split_ifs <;> norm_num

theorem latencyPenalty_le (l : ℚ) : latencyPenalty l ≤ 15 := by
  unfold latencyPenalty; split_ifs <;> norm_num

theorem utilizationBonus_nonneg (u : ℚ) : 0 ≤ utilizationBonus u := by
  unfold utilizationBonus; split_ifs <;> norm_num

theorem utilizationBonus_le (u : ℚ) : utilizationBonus u ≤ 5 := by
  unfold utilizationBonus; split_ifs <;> norm_num

/-- Strict decrease of the clamped score when the subtracted penalty jumps by
at least one tier (the non-memory penalties keep the pre-clamp score no lower
than 30, so the clamp never hides the decrease). -/
theorem clamp_strict_anti {base p1 p2 : ℚ} (hb1 : 30 ≤ base) (hb2 : base ≤ 105)
    (hp1 : 0 ≤ p1) (hp1' : p1 ≤ 20) (hgap : p1 + 10 ≤ p2) :
    max 0 (min 100 (base - p2)) < max 0 (min 100 (base - p1)) := by
  simp only [max_def, min_def]
  split_ifs <;> linarith

theorem memStage (s m : ℚ) :
    (if m > 9/10 then s - 40 else if m > 8/10 then s - 20
      else if m > 7/10 then s - 10 else s) = s - memoryPenalty m := by
  unfold memoryPenalty; split_ifs <;> ring

theorem tempStageSome (s tv : ℚ) :
    (if tv > 85 then s - 30 else if tv > 80 then s - 15
      else if tv > 75 then s - 5 else s) = s - temperaturePenalty (some tv) := by
  simp only [temperaturePenalty]; split_ifs <;> ring

theorem errStage (s e : ℚ) :
    (if e > 1/10 then s - 25 else if e > 1/20 then s - 10
      else if e > 1/100 then s - 5 else s) = s - errorRatePenalty e := by
  unfold errorRatePenalty; split_ifs <;> ring

theorem latStage (s l : ℚ) :
    (if l > 60 then s - 15 else if l > 30 then s - 5 else s)
      = s - latencyPenalty l := by
  unfold latencyPenalty; split_ifs <;> ring

theorem utilStage (s u : ℚ) :
    (if 3/10 ≤ u ∧ u ≤ 8/10 then s + 5 else s) = s + utilizationBonus u := by
  unfold utilizationBonus; split_ifs <;> ring

/-- The transliterated score function agrees with the spec-shaped formula. -/
theorem calculateHealthScore_eq (m u : ℚ) (t : Option ℚ) (e l : ℚ) :
    calculateHealthScore m u t e l = healthScoreSpec m u t e l := by
  cases t with
  | none =>
    simp only [calculateHealthScore, healthScoreSpec]
    rw [utilStage, latStage, errStage, memStage]
    simp [temperaturePenalty]
  | some tv =>
    simp only [calculateHealthScore, healthScoreSpec]
    rw [utilStage, latStage, errStage, tempStageSome, memStage]

/-- The spec-shaped score is within the clamp bounds. -/
theorem healthScoreSpec_bounds (m u : ℚ) (t : Option ℚ) (e l : ℚ) :
    0 ≤ healthScoreSpec m u t e l ∧ healthScoreSpec m u t e l ≤ 100 := by
  unfold healthScoreSpec
  exact ⟨le_max_left _ _, max_le (by norm_num) (min_le_left _ _)⟩

/-- Strict decrease of the spec-shaped score when the memory penalty jumps a
tier. -/
theorem healthScoreSpec_strict_anti (m1 m2 u : ℚ) (t : Option ℚ) (e l : ℚ)
    (hp1 : memoryPenalty m1 ≤ 20) (hgap : memoryPenalty m1 + 10 ≤ memoryPenalty m2) :
    healthScoreSpec m2 u t e l < healthScoreSpec m1 u t e l := by
  have hb1 : 30 ≤ 100 - temperaturePenalty t - errorRatePenalty e - latencyPenalty l
      + utilizationBonus u := by
    have := temperaturePenalty_le t
    have := errorRatePenalty_le e
    have := latencyPenalty_le l
    have := utilizationBonus_nonneg u
    linarith
  have hb2 : 100 - temperaturePenalty t - errorRatePenalty e - latencyPenalty l
      + utilizationBonus u ≤ 105 := by
    have := temperaturePenalty_nonneg t
    have := errorRatePenalty_nonneg e
    have := latencyPenalty_nonneg l
    have := utilizationBonus_le u
    linarith
  have key := clamp_strict_anti hb1 hb2 (memoryPenalty_nonneg m1) hp1 hgap
  unfold healthScoreSpec
  have e1 : 100 - memoryPenalty m1 - temperaturePenalty t - errorRatePenalty e
      - latencyPenalty l + utilizationBonus u
      = (100 - temperaturePenalty t - errorRatePenalty e - latencyPenalty l
          + utilizationBonus u) - memoryPenalty m1 := by ring
  have e2 : 100 - memoryPenalty m2 - temperaturePenalty t - errorRatePenalty e
      - latencyPenalty l + utilizationBonus u
      = (100 - temperaturePenalty t - errorRatePenalty e - latencyPenalty l
          + utilizationBonus u) - memoryPenalty m2 := by ring
  rw [e1, e2]
  exact key

/-- C5 (confirmed).  `_calculate_health_score` computes exactly the
spec-shaped weighted-penalty formula (100 minus 40/20/10 for memory above
90/80/70%, minus 30/15/5 for temperature above 85/80/75°C when available,
minus 25/10/5 for error rate above 10/5/1%, minus 15/5 for latency above
60/30 s, plus 5 for utilization in [30%, 80%], clamped to [0, 100]); the
result always lies in [0, 100], and with all other inputs fixed, moving
memory usage past each of the 70/80/90% thresholds strictly decreases the
score. -/
theorem healthScore_spec_correct :
    (∀ (m u : ℚ) (t : Option ℚ) (e l : ℚ),
        calculateHealthScore m u t e l = healthScoreSpec m u t e l) ∧
    (∀ (m u : ℚ) (t : Option ℚ) (e l : ℚ),
        0 ≤ calculateHealthScore m u t e l ∧ calculateHealthScore m u t e l ≤ 100) ∧
    (∀ (m1 m2 u : ℚ) (t : Option ℚ) (e l : ℚ), m1 ≤ 7/10 → 7/10 < m2 →
        calculateHealthScore m2 u t e l < calculateHealthScore m1 u t e l) ∧
    (∀ (m1 m2 u : ℚ) (t : Option ℚ) (e l : ℚ), m1 ≤ 8/10 → 8/10 < m2 →
        calculateHealthScore m2 u t e l < calculateHealthScore m1 u t e l) ∧
    (∀ (m1 m2 u : ℚ) (t : Option ℚ) (e l : ℚ), m1 ≤ 9/10 → 9/10 < m2 →
        calculateHealthScore m2 u t e l < calculateHealthScore m1 u t e l) := by
  refine ⟨calculateHealthScore_eq, ?_, ?_, ?_, ?_⟩
  · intro m u t e l
    rw [calculateHealthScore_eq]
    exact healthScoreSpec_bounds m u t e l
  · intro m1 m2 u t e l h1 h2
    rw [calculateHealthScore_eq, calculateHealthScore_eq]
    refine healthScoreSpec_strict_anti m1 m2 u t e l ?_ ?_
    · rw [memoryPenalty_eq_zero h1]; norm_num
    · rw [memoryPenalty_eq_zero h1]
      have := memoryPenalty_ge_ten h2
      linarith
  · intro m1 m2 u t e l h1 h2
    rw [calculateHealthScore_eq, calculateHealthScore_eq]
    refine healthScoreSpec_strict_anti m1 m2 u t e l ?_ ?_
    · exact le_trans (memoryPenalty_le_ten h1) (by norm_num)
    · have := memoryPenalty_le_ten h1
      have := memoryPenalty_ge_twenty h2
      linarith
  · intro m1 m2 u t e l h1 h2
    rw [calculateHealthScore_eq, calculateHealthScore_eq]
    refine healthScoreSpec_strict_anti m1 m2 u t e l ?_ ?_
    · exact memoryPenalty_le_twenty h1
    · have := memoryPenalty_le_twenty h1
      rw [memoryPenalty_eq_forty h2]
      linarith

/-- Witness for C5: crossing the 70% memory threshold at concrete inputs
strictly lowers the score. -/
theorem healthScore_spec_correct_witness :
    calculateHealthScore (75/100) 0 none 0 0 < calculateHealthScore (7/10) 0 none 0 0 :=
  healthScore_spec_correct.2.2.1 (7/10) (75/100) 0 none 0 0 le_rfl (by norm_num)

/-! ### Claim C10: the completed-tasks map only grows -/

/-- C10 (confirmed).  Every task that reaches a terminal state in
`GPUWorkerPool._process_task` (success or synthesis failure) is inserted into
`completed_tasks`; no pool operation ever removes a key from that map, its
size is monotonically non-decreasing, and `get_task_result` returns a
non-`None` view exactly when the task id is a key of the map. -/
theorem completedTasks_monotone :
    (∀ (completed : List (String × SynthesisTask)) (op : GpuPoolOp) (k : String),
        (dictGet k completed).isSome = true →
        (dictGet k (gpuPoolCompletedStep completed op)).isSome = true) ∧
    (∀ (completed : List (String × SynthesisTask)) (op : GpuPoolOp),
        completed.length ≤ (gpuPoolCompletedStep completed op).length) ∧
    (∀ (completed : List (String × SynthesisTask)) (task_id : String),
        (getTaskResult completed task_id).isSome = true ↔
          (dictGet task_id completed).isSome = true) ∧
    (∀ (completed : List (String × SynthesisTask)) (t : SynthesisTask)
        (stream_id : String) (synthResult : Option String),
        (dictGet t.task_id (gpuProcessTask completed t stream_id synthResult).completed).isSome
          = true) := by
  refine ⟨?_, ?_, ?_, ?_⟩
  · intro completed op k h
    cases op with
    | processTask t sid synthResult =>
      cases synthResult with
      | some path =>
        simp only [gpuPoolCompletedStep, gpuProcessTask]
        rw [dictGet_dictInsert]
        split_ifs <;> simp_all
      | none =>
        simp only [gpuPoolCompletedStep, gpuProcessTask]
        rw [dictGet_dictInsert]
        split_ifs <;> simp_all
    | submitTask t => exact h
    | getResult task_id => exact h
    | stop => exact h
  · intro completed op
    cases op with
    | processTask t sid synthResult =>
      cases synthResult with
      | some path => exact length_dictInsert_ge _ _ _
      | none => exact length_dictInsert_ge _ _ _
    | submitTask t => exact le_refl _
    | getResult task_id => exact le_refl _
    | stop => exact le_refl _
  · intro completed task_id
    unfold getTaskResult
    cases hh : dictGet task_id completed <;> simp [hh]
  · intro completed t stream_id synthResult
    cases synthResult with
    | some path =>
      simp only [gpuProcessTask]
      rw [dictGet_dictInsert]
      simp
    | none =>
      simp only [gpuProcessTask]
      rw [dictGet_dictInsert]
      simp

/-- A concrete completed task already stored in the map. -/
def c10StoredTask : SynthesisTask :=
  { task_id := "t10", text := "stored text", voice := "v", user_id := none,
    result_path := some "a.wav" }

/-- A concrete new task being processed. -/
def c10NewTask : SynthesisTask :=
  { task_id := "t11", text := "new text", voice := "v", user_id := none }

/-- Witness for C10: processing a new task preserves the stored entry. -/
theorem completedTasks_monotone_witness :
    (dictGet "t10" (gpuPoolCompletedStep [("t10", c10StoredTask)]
      (.processTask c10NewTask "s11" (some "b.wav")))).isSome = true :=
  completedTasks_monotone.1 [("t10", c10StoredTask)]
    (.processTask c10NewTask "s11" (some "b.wav")) "t10" (by decide)

/-! ### Claim C1: one result publication and one acknowledgement per terminal state -/

/-- A concrete task whose synthesis fails in the GPU worker pool. -/
def c1FailTask : SynthesisTask :=
  { task_id := "t-fail", text := "some long enough text", voice := "female_1",
    user_id := none }

/-- C1 counterexample: in `GPUWorkerPool._process_task` a task whose
synthesis fails reaches a terminal state (it is recorded in
`completed_tasks` and its message acknowledged), yet zero result messages are
published — the claim requires exactly one. -/
theorem gpuFailurePublishesNoResult_cex :
    (gpuProcessTask [] c1FailTask "s1" none).resultsPublished.length = 0 ∧
    (gpuProcessTask [] c1FailTask "s1" none).acks = ["s1"] ∧
    (getTaskResult (gpuProcessTask [] c1FailTask "s1" none).completed "t-fail").isSome
      = true := by
  refine ⟨rfl, rfl, by decide⟩

/-- C1 (amended).  In `AsyncWorkerManager` both terminal paths (success, and
failure with retries exhausted) publish exactly one result and issue exactly
one acknowledgement, and a non-terminal failure publishes and acknowledges
nothing (it only re-enqueues); in `GPUWorkerPool` a successful task publishes
exactly one result and one acknowledgement, but a failed synthesis publishes
zero results and one acknowledgement (the failure is recorded only in the
in-memory `completed_tasks` map). -/
theorem terminalEffects_amended :
    (∀ (t : WorkerTask) (path : String),
        (awmProcessTask t (some path)).resultsPublished.length = 1 ∧
        (awmProcessTask t (some path)).acks = [t.stream_id] ∧
        (awmProcessTask t (some path)).requeued = none) ∧
    (∀ (t : WorkerTask) (err : String), t.max_retries ≤ t.retry_count + 1 →
        (handleTaskError t err).resultsPublished.length = 1 ∧
        (handleTaskError t err).acks = [t.stream_id] ∧
        (handleTaskError t err).requeued = none) ∧
    (∀ (t : WorkerTask) (err : String), t.retry_count + 1 < t.max_retries →
        (handleTaskError t err).resultsPublished = [] ∧
        (handleTaskError t err).acks = [] ∧
        (handleTaskError t err).requeued = some { t with retry_count := t.retry_count + 1 }) ∧
    (∀ (completed : List (String × SynthesisTask)) (t : SynthesisTask)
        (sid path : String),
        (gpuProcessTask completed t sid (some path)).resultsPublished.length = 1 ∧
        (gpuProcessTask completed t sid (some path)).acks = [sid]) ∧
    (∀ (completed : List (String × SynthesisTask)) (t : SynthesisTask) (sid : String),
        (gpuProcessTask completed t sid none).resultsPublished = [] ∧
        (gpuProcessTask completed t sid none).acks = [sid]) := by
  refine ⟨?_, ?_, ?_, ?_, ?_⟩
  · intro t path
    simp [awmProcessTask]
  · intro t err h
    have hc : ¬ (t.retry_count + 1 < t.max_retries) := by omega
    simp [awmProcessTask, handleTaskError, hc]
  · intro t err h
    simp [awmProcessTask, handleTaskError, h]
  · intro completed t sid path
    simp [gpuProcessTask]
  · intro completed t sid
    simp [gpuProcessTask]

/-- A concrete task with retries exhausted on the next failure. -/
def c1ExhaustedTask : WorkerTask :=
  { task_id := "tx", text := "x", voice := "v", user_id := none,
    priority := .normal, stream_id := "sx", retry_count := 2, max_retries := 3 }

/-- Witness for C1 at the exhausted-retry terminal path. -/
theorem terminalEffects_amended_witness :
    (handleTaskError c1ExhaustedTask "boom").resultsPublished.length = 1 ∧
    (handleTaskError c1ExhaustedTask "boom").acks = [c1ExhaustedTask.stream_id] ∧
    (handleTaskError c1ExhaustedTask "boom").requeued = none :=
  terminalEffects_amended.2.1 c1ExhaustedTask "boom" (by decide)

/-! ### Claim C3: total executions for an always-failing task -/

/-- Helper: with `retry_count = 0` and `max_retries = 3`, an always-failing
task is executed 3 times in total and then produces exactly one failure
result and one acknowledgement. -/
theorem runAlwaysFailing_three :
    ∀ t : WorkerTask, t.retry_count = 0 → t.max_retries = 3 →
      (runAlwaysFailing t).1 = 3 ∧
      (runAlwaysFailing t).2.resultsPublished.length = 1 ∧
      (runAlwaysFailing t).2.acks = [t.stream_id] ∧
      (runAlwaysFailing t).2.requeued = none := by
  rintro ⟨tid, tx, vc, uid, pr, sid, ug, rc, mr⟩ h0 h3
  simp only at h0 h3
  subst h0 h3
  simp [runAlwaysFailing, handleTaskError]

/-- A concrete task with the default `retry_count = 0`, `max_retries = 3`
whose synthesis always fails. -/
def c3Task : WorkerTask :=
  { task_id := "t3", text := "text", voice := "v", user_id := none,
    priority := .normal, stream_id := "s3" }

/-- C3 counterexample: with `max_retries = 3` an always-failing task is
executed 3 times in total, not 4. -/
theorem retryAttempts_three_not_four_cex :
    (runAlwaysFailing c3Task).1 = 3 ∧ (runAlwaysFailing c3Task).1 ≠ 4 := by
  have h := (runAlwaysFailing_three c3Task rfl rfl).1
  exact ⟨h, by rw [h]; decide⟩

/-- C3 (amended).  `_handle_task_error` increments `retry_count` before the
`retry_count < max_retries` check, so with `max_retries = 3` an always-failing
task is executed 3 times in total (1 initial attempt + 2 retries) and then
emits exactly one terminal failure result and one acknowledgement. -/
theorem retryAttempts_amended :
    ∀ t : WorkerTask, t.retry_count = 0 → t.max_retries = 3 →
      (runAlwaysFailing t).1 = 3 ∧
      (runAlwaysFailing t).2.resultsPublished.length = 1 ∧
      (runAlwaysFailing t).2.acks = [t.stream_id] ∧
      (runAlwaysFailing t).2.requeued = none :=
  runAlwaysFailing_three

/-- Witness for C3 at the concrete task. -/
theorem retryAttempts_amended_witness :
    (runAlwaysFailing c3Task).1 = 3 ∧
    (runAlwaysFailing c3Task).2.resultsPublished.length = 1 ∧
    (runAlwaysFailing c3Task).2.acks = [c3Task.stream_id] ∧
    (runAlwaysFailing c3Task).2.requeued = none :=
  retryAttempts_amended c3Task rfl rfl

/-! ### Claim C9: the correlation cache is not time-boxed -/

/-- A concrete forwarded task whose synthesis fails in the pool. -/
def c9FailTask : SynthesisTask :=
  { task_id := "t9", text := "long enough text for gpu", voice := "v", user_id := none }

/-- C9 counterexample: a task forwarded to the GPU whose synthesis fails
produces no result message (the pool publishes nothing on failure), and after
any amount of elapsed time (100 timer ticks, during which the service runs no
cleanup) its correlation entry is still present in `task_cache` — the claim
requires the entry to be removed when the bounded wait expires. -/
theorem taskCache_persistence_cex :
    (gpuProcessTask [] c9FailTask "s9" none).resultsPublished = [] ∧
    dictGet "t9" (runCache []
        (IntegrationOp.forwardToGpu "t9" "s9" :: List.replicate 100 IntegrationOp.timePasses))
      = some ⟨"s9"⟩ := by
  refine ⟨rfl, by decide⟩

/-- C9 (amended).  `_forward_to_gpu` records the correlation entry, and the
only operation that ever removes an entry is the arrival of a result message
for that task id in `_process_gpu_result`; elapsed time never removes entries
(no timeout sweep exists — the `processing_timeout` config field is unread),
and each forward of a not-yet-cached task id grows the cache by one, so
entries of tasks whose result message never arrives (for example failed
synthesis, which publishes no result) persist forever and the map can grow
without bound. -/
theorem taskCache_amended :
    (∀ (cache : List (String × CacheEntry)) (task_id stream_id : String),
        dictGet task_id (cacheStep cache (.forwardToGpu task_id stream_id))
          = some ⟨stream_id⟩) ∧
    (∀ cache : List (String × CacheEntry), cacheStep cache .timePasses = cache) ∧
    (∀ (cache : List (String × CacheEntry)) (k : String) (op : IntegrationOp),
        (dictGet k cache).isSome = true → dictGet k (cacheStep cache op) = none →
        op = .gpuResult k) ∧
    (∀ (cache : List (String × CacheEntry)) (task_id stream_id : String),
        dictGet task_id cache = none →
        (cacheStep cache (.forwardToGpu task_id stream_id)).length = cache.length + 1) := by
  refine ⟨?_, ?_, ?_, ?_⟩
  · intro cache task_id stream_id
    simp only [cacheStep]
    rw [dictGet_dictInsert]
    simp
  · intro cache
    rfl
  · intro cache k op hsome hnone
    cases op with
    | forwardToGpu task_id stream_id =>
      simp only [cacheStep] at hnone
      rw [dictGet_dictInsert] at hnone
      split_ifs at hnone <;> simp_all
    | gpuResult task_id =>
      by_cases hik : task_id = k
      · rw [hik]
      · rw [show cacheStep cache (.gpuResult task_id) = dictRemove task_id cache from rfl,
          dictGet_dictRemove_ne k task_id cache hik] at hnone
        simp [hnone] at hsome
    | timePasses =>
      rw [show cacheStep cache .timePasses = cache from rfl] at hnone
      simp [hnone] at hsome
  · intro cache task_id stream_id h
    simp only [cacheStep]
    exact length_dictInsert_fresh _ _ _ h

/-- Witness for C9: forwarding a fresh task id grows the cache by one. -/
theorem taskCache_amended_witness :
    (cacheStep [] (IntegrationOp.forwardToGpu "t9" "s9")).length
      = List.length ([] : List (String × CacheEntry)) + 1 :=
  taskCache_amended.2.2.2 [] "t9" "s9" rfl

/-! ### Claim C2: the concurrency band and the permit gate -/

/-- `_adapt_concurrency` keeps the limit inside the configured band. -/
theorem adaptConcurrency_bounds (cfg : PoolConfig)
    (hmm : cfg.minConcurrent ≤ cfg.maxConcurrent) (current : Int) (mem : ℚ)
    (h1 : cfg.minConcurrent ≤ current) (h2 : current ≤ cfg.maxConcurrent) :
    cfg.minConcurrent ≤ adaptConcurrency cfg current mem ∧
      adaptConcurrency cfg current mem ≤ cfg.maxConcurrent := by
  unfold adaptConcurrency
  split_ifs
  · exact ⟨le_refl _, hmm⟩
  · exact ⟨le_max_left _ _, max_le hmm (by omega)⟩
  · exact ⟨le_min hmm (by omega), min_le_left _ _⟩
  · exact ⟨h1, h2⟩

/-- One step of the permit-gate machine preserves the gate invariant. -/
theorem poolStep_inv (cfg : PoolConfig) (hmin0 : 0 ≤ cfg.minConcurrent)
    (hmm : cfg.minConcurrent ≤ cfg.maxConcurrent) (s : PoolSemState)
    (hs : PoolInv cfg s) (e : PoolEvent) : PoolInv cfg (poolStep cfg s e) := by
  obtain ⟨h0, h1, h2, h3⟩ := hs
  cases e with
  | acquire =>
    simp only [poolStep]
    split_ifs with h
    · exact ⟨by dsimp only; omega, by dsimp only; omega, h2, h3⟩
    · exact ⟨h0, h1, h2, h3⟩
  | release =>
    simp only [poolStep]
    split_ifs with h
    · exact ⟨by dsimp only; omega, by dsimp only; omega, h2, h3⟩
    · exact ⟨h0, h1, h2, h3⟩
  | releaseOld =>
    exact ⟨h0, h1, h2, h3⟩
  | memorySample mem =>
    simp only [poolStep]
    split_ifs with h
    · have hb := adaptConcurrency_bounds cfg hmm s.current mem h2 h3
      exact ⟨by dsimp only; omega, by dsimp only; omega, hb.1, hb.2⟩
    · exact ⟨h0, h1, h2, h3⟩

/-- C2 (amended).  Under `min ≤ initial ≤ max` the limit stays in `[min,max]`
after every adaptive update, and the number of tasks holding a permit of the
*current* gate never exceeds the limit; however, while the gate is being
resized, tasks still holding permits of the superseded semaphore are
unaffected (the swap in `_update_semaphore` installs the new semaphore
immediately), so the *total* number of executing tasks can exceed the limit
during a shrink — see the counterexample. -/
theorem permitGate_amended :
    ∀ (cfg : PoolConfig) (s : PoolSemState) (evs : List PoolEvent),
      0 ≤ cfg.minConcurrent → cfg.minConcurrent ≤ cfg.maxConcurrent → PoolInv cfg s →
      PoolInv cfg (runPool cfg s evs) ∧
      ((runPool cfg s evs).semHolders : Int) ≤ (runPool cfg s evs).current ∧
      cfg.minConcurrent ≤ (runPool cfg s evs).current ∧
      (runPool cfg s evs).current ≤ cfg.maxConcurrent := by
  intro cfg s evs hmin0 hmm hs
  have hrun : PoolInv cfg (runPool cfg s evs) := by
    induction evs generalizing s with
    | nil => exact hs
    | cons e rest ih => exact ih _ (poolStep_inv cfg hmin0 hmm s hs e)
  obtain ⟨h0, h1, h2, h3⟩ := hrun
  exact ⟨⟨h0, h1, h2, h3⟩, by omega, h2, h3⟩

/-- The initial permit-gate state of the counterexample trace: limit 2 with
both permits free. -/
def cexPoolStart : PoolSemState :=
  { current := 2, semValue := 2, semHolders := 0, oldHolders := 0 }

/-- Two workers acquire, a critical memory sample shrinks the gate to 1 and
swaps the semaphore, then a third worker acquires the fresh permit. -/
def cexPoolTrace : List PoolEvent :=
  [.acquire, .acquire, .memorySample (95/100), .acquire]

theorem cexPool_run_eval :
    runPool c4Config cexPoolStart cexPoolTrace
      = { current := 1, semValue := 0, semHolders := 1, oldHolders := 2 } := by
  have s1 : poolStep c4Config cexPoolStart .acquire
      = { current := 2, semValue := 1, semHolders := 1, oldHolders := 0 } := by
    norm_num [poolStep, cexPoolStart]
  have s2 : poolStep c4Config
        { current := 2, semValue := 1, semHolders := 1, oldHolders := 0 } .acquire
      = { current := 2, semValue := 0, semHolders := 2, oldHolders := 0 } := by
    norm_num [poolStep]
  have s3 : poolStep c4Config
        { current := 2, semValue := 0, semHolders := 2, oldHolders := 0 }
        (.memorySample (95/100))
      = { current := 1, semValue := 1, semHolders := 0, oldHolders := 2 } := by
    norm_num [poolStep, adaptConcurrency, c4Config]
  have s4 : poolStep c4Config
        { current := 1, semValue := 1, semHolders := 0, oldHolders := 2 } .acquire
      = { current := 1, semValue := 0, semHolders := 1, oldHolders := 2 } := by
    norm_num [poolStep]
  simp only [runPool, cexPoolTrace, List.foldl]
  rw [s1, s2, s3, s4]

/-- C2 counterexample: on the concrete trace the limit is 1 but three tasks
hold permits (two on the superseded gate, one on the new gate), so the number
of executing tasks exceeds the current limit while the gate is being
resized. -/
theorem permitGate_overshoot_cex :
    PoolInv c4Config cexPoolStart ∧
    (runPool c4Config cexPoolStart cexPoolTrace).executing = 3 ∧
    (runPool c4Config cexPoolStart cexPoolTrace).current = 1 ∧
    ¬ (((runPool c4Config cexPoolStart cexPoolTrace).executing : Int)
        ≤ (runPool c4Config cexPoolStart cexPoolTrace).current) := by
  refine ⟨?_, ?_, ?_, ?_⟩
  · norm_num [PoolInv, c4Config, cexPoolStart]
  · rw [cexPool_run_eval]
    rfl
  · rw [cexPool_run_eval]
  · rw [cexPool_run_eval]
    norm_num [PoolSemState.executing]

/-- Witness for C2 at the concrete configuration and trace. -/
theorem permitGate_amended_witness :
    PoolInv c4Config (runPool c4Config cexPoolStart cexPoolTrace) ∧
    ((runPool c4Config cexPoolStart cexPoolTrace).semHolders : Int)
      ≤ (runPool c4Config cexPoolStart cexPoolTrace).current ∧
    c4Config.minConcurrent ≤ (runPool c4Config cexPoolStart cexPoolTrace).current ∧
    (runPool c4Config cexPoolStart cexPoolTrace).current ≤ c4Config.maxConcurrent :=
  permitGate_amended c4Config cexPoolStart cexPoolTrace
    (by norm_num [c4Config]) (by norm_num [c4Config])
    (by norm_num [PoolInv, c4Config, cexPoolStart])

end F5TTS
